import Mathlib

/-!
Verification of the AGOS flood-monitoring LED-matrix animation module
(`src/agosarduino/MatrixAnimation.cpp` / `.h`).

The module holds four 8x12 bitmap frames (`frame_full`, `frame_med`,
`frame_small`, `frame_off`), three timing constants (`SHORT`, `SHORT_GAP`,
`LONG_GAP`), and two entry points: `initMatrix` (hardware setup) and
`updateMatrixAnimation` (one heartbeat cycle).

The embedding records every observable interaction with the display driver
(`matrix.begin()`, `matrix.renderBitmap(frame, rows, cols)`) and every call
to `delay(ms)` as an `Effect` appended to a trace.  The four frame arrays
are mutable globals in the C++ source, so they are carried in the program
state alongside the trace; `renderBitmap` records the current contents of
the array at call time.
-/

/-- One cell row of a frame: the C++ source stores `byte` values. -/
abbrev FrameRow := List Nat

/-- A frame bitmap, a list of rows, each a list of cells. -/
abbrev Frame := List FrameRow

/-- Translation of `byte frame_full[8][12] = { ... }`. -/
def frame_full : Frame :=
  [ [0, 0, 1, 1, 0, 0, 0, 1, 1, 0, 0, 0],
    [0, 1, 1, 1, 1, 0, 1, 1, 1, 1, 0, 0],
    [0, 1, 1, 1, 1, 1, 1, 1, 1, 1, 0, 0],
    [0, 0, 1, 1, 1, 1, 1, 1, 1, 0, 0, 0],
    [0, 0, 0, 1, 1, 1, 1, 1, 0, 0, 0, 0],
    [0, 0, 0, 0, 1, 1, 1, 0, 0, 0, 0, 0],
    [0, 0, 0, 0, 0, 1, 0, 0, 0, 0, 0, 0],
    [0, 0, 0, 0, 0, 0, 0, 0, 0, 0, 0, 0] ]

/-- Translation of `byte frame_med[8][12] = { ... }`. -/
def frame_med : Frame :=
  [ [0, 0, 0, 1, 0, 0, 0, 1, 0, 0, 0, 0],
    [0, 0, 1, 1, 1, 0, 1, 1, 1, 0, 0, 0],
    [0, 0, 1, 1, 1, 1, 1, 1, 1, 0, 0, 0],
    [0, 0, 0, 1, 1, 1, 1, 1, 0, 0, 0, 0],
    [0, 0, 0, 0, 1, 1, 1, 0, 0, 0, 0, 0],
    [0, 0, 0, 0, 0, 1, 0, 0, 0, 0, 0, 0],
    [0, 0, 0, 0, 0, 0, 0, 0, 0, 0, 0, 0],
    [0, 0, 0, 0, 0, 0, 0, 0, 0, 0, 0, 0] ]

/-- Translation of `byte frame_small[8][12] = { ... }`. -/
def frame_small : Frame :=
  [ [0, 0, 0, 0, 0, 0, 0, 0, 0, 0, 0, 0],
    [0, 0, 0, 1, 0, 0, 0, 1, 0, 0, 0, 0],
    [0, 0, 0, 1, 1, 0, 1, 1, 0, 0, 0, 0],
    [0, 0, 0, 0, 1, 1, 1, 0, 0, 0, 0, 0],
    [0, 0, 0, 0, 0, 1, 0, 0, 0, 0, 0, 0],
    [0, 0, 0, 0, 0, 0, 0, 0, 0, 0, 0, 0],
    [0, 0, 0, 0, 0, 0, 0, 0, 0, 0, 0, 0],
    [0, 0, 0, 0, 0, 0, 0, 0, 0, 0, 0, 0] ]

/-- Translation of `byte frame_off[8][12] = { {0} };` — C aggregate
initialization zero-fills every remaining element, so every one of the
8 rows is 12 zeros. -/
def frame_off : Frame := List.replicate 8 (List.replicate 12 0)

/-- Translation of `const unsigned long SHORT = 100;`. -/
def SHORT : Nat := 100

/-- Translation of `const unsigned long SHORT_GAP = 100;`. -/
def SHORT_GAP : Nat := 100

/-- Translation of `const unsigned long LONG_GAP = 700;`. -/
def LONG_GAP : Nat := 700

/-- An observable effect issued by the module: a call to the display
driver (`begin`, `renderBitmap`) or to the Arduino `delay` function. -/
inductive Effect where
  | begin : Effect
  | render (frame : Frame) (rows cols : Nat) : Effect
  | delayMs (ms : Nat) : Effect
  deriving DecidableEq, Repr

/-- Program state: the four global frame arrays (mutable `byte` arrays in
the C++ source) together with the recorded trace of effects. -/
structure MatrixState where
  fFull : Frame
  fMed : Frame
  fSmall : Frame
  fOff : Frame
  trace : List Effect
  deriving DecidableEq, Repr

/-- The state at program start: the globals hold their initializers and no
effect has been issued. -/
def initialState : MatrixState :=
  { fFull := frame_full, fMed := frame_med, fSmall := frame_small,
    fOff := frame_off, trace := [] }

/-- Translation of `void initMatrix() { matrix.begin(); }`. -/
def initMatrix (s : MatrixState) : MatrixState :=
  { s with trace := s.trace ++ [Effect.begin] }

/-- Translation of `void updateMatrixAnimation()`: renders the current
contents of the global frame arrays in the source's order, with the
source's delays interleaved. -/
def updateMatrixAnimation (s : MatrixState) : MatrixState :=
  { s with trace := s.trace ++
      [ Effect.render s.fSmall 8 12, Effect.delayMs SHORT,
        Effect.render s.fMed 8 12, Effect.delayMs SHORT_GAP,
        Effect.render s.fFull 8 12, Effect.delayMs SHORT,
        Effect.render s.fMed 8 12, Effect.delayMs LONG_GAP,
        Effect.render s.fOff 8 12 ] }

/-- The two operations a caller of the module can perform. -/
inductive Op where
  | init : Op
  | update : Op
  deriving DecidableEq, Repr

/-- Run one operation. -/
def runOp (o : Op) (s : MatrixState) : MatrixState :=
  match o with
  | Op.init => initMatrix s
  | Op.update => updateMatrixAnimation s

/-- Run a sequence of operations from a state. -/
def runOps (ops : List Op) (s : MatrixState) : MatrixState :=
  match ops with
  | [] => s
  | o :: rest => runOps rest (runOp o s)

/-- The effects issued by a single heartbeat cycle when the frame globals
hold their initial values. -/
def heartbeatTrace : List Effect :=
  [ Effect.render frame_small 8 12, Effect.delayMs 100,
    Effect.render frame_med 8 12, Effect.delayMs 100,
    Effect.render frame_full 8 12, Effect.delayMs 100,
    Effect.render frame_med 8 12, Effect.delayMs 700,
    Effect.render frame_off 8 12 ]

/-- A frame is well-formed when it has exactly 8 rows of exactly 12 cells
each, every cell 0 or 1. -/
def frameWellFormed (f : Frame) : Prop :=
  f.length = 8 ∧ ∀ row ∈ f, row.length = 12 ∧ ∀ c ∈ row, c = 0 ∨ c = 1

instance (f : Frame) : Decidable (frameWellFormed f) := by
  unfold frameWellFormed; infer_instance

/-- Cell lookup, row-major, with an out-of-range default of 0. -/
def cellAt (f : Frame) (r c : Nat) : Nat := (f.getD r []).getD c 0

/-- The durations of the `delayMs` effects of a trace, in order. -/
def delaysOf : List Effect → List Nat
  | [] => []
  | Effect.delayMs ms :: rest => ms :: delaysOf rest
  | _ :: rest => delaysOf rest

/-- The kind of an effect, forgetting its arguments. -/
inductive EffectKind where
  | begin : EffectKind
  | render : EffectKind
  | delay : EffectKind
  deriving DecidableEq, Repr

/-- Map an effect to its kind. -/
def effectKind : Effect → EffectKind
  | Effect.begin => EffectKind.begin
  | Effect.render _ _ _ => EffectKind.render
  | Effect.delayMs _ => EffectKind.delay

/-- A render effect passes row count 8 and column count 12, and these
match the actual dimensions of the frame argument; non-render effects
satisfy the predicate vacuously. -/
def renderDimsOk : Effect → Prop
  | Effect.render f r c =>
      r = 8 ∧ c = 12 ∧ f.length = r ∧ ∀ row ∈ f, row.length = c
  | _ => True

instance (e : Effect) : Decidable (renderDimsOk e) := by
  unfold renderDimsOk; cases e <;> infer_instance

/-- The frame globals of a state hold their initial values. -/
def framesInitial (s : MatrixState) : Prop :=
  s.fFull = frame_full ∧ s.fMed = frame_med ∧
  s.fSmall = frame_small ∧ s.fOff = frame_off

lemma runOp_frames (o : Op) (s : MatrixState) :
    (runOp o s).fFull = s.fFull ∧ (runOp o s).fMed = s.fMed ∧
    (runOp o s).fSmall = s.fSmall ∧ (runOp o s).fOff = s.fOff := by
  cases o <;> simp [runOp, initMatrix, updateMatrixAnimation]

lemma runOps_frames (ops : List Op) (s : MatrixState) :
    (runOps ops s).fFull = s.fFull ∧ (runOps ops s).fMed = s.fMed ∧
    (runOps ops s).fSmall = s.fSmall ∧ (runOps ops s).fOff = s.fOff := by
  induction ops generalizing s with
  | nil => simp [runOps]
  | cons o rest ih =>
      have h := runOp_frames o s
      have h2 := ih (runOp o s)
      exact ⟨h2.1.trans h.1, (h2.2.1).trans h.2.1,
        (h2.2.2.1).trans h.2.2.1, (h2.2.2.2).trans h.2.2.2⟩

lemma updateMatrixAnimation_trace_of_initial (s : MatrixState)
    (h : framesInitial s) :
    (updateMatrixAnimation s).trace = s.trace ++ heartbeatTrace := by
  obtain ⟨h1, h2, h3, h4⟩ := h
  simp [updateMatrixAnimation, heartbeatTrace, h1, h2, h3, h4,
    SHORT, SHORT_GAP, LONG_GAP]

lemma runOps_framesInitial (ops : List Op) :
    framesInitial (runOps ops initialState) := by
  have h := runOps_frames ops initialState
  exact ⟨h.1, h.2.1, h.2.2.1, h.2.2.2⟩

lemma replicate_update_trace (n : Nat) (s : MatrixState)
    (h : framesInitial s) :
    (runOps (List.replicate n Op.update) s).trace =
      s.trace ++ (List.replicate n heartbeatTrace).flatten := by
  induction n generalizing s with
  | zero => simp [runOps]
  | succ k ih =>
      have hstep : framesInitial (runOp Op.update s) := by
        have hf := runOp_frames Op.update s
        exact ⟨hf.1.trans h.1, hf.2.1.trans h.2.1,
          hf.2.2.1.trans h.2.2.1, hf.2.2.2.trans h.2.2.2⟩
      calc (runOps (List.replicate (k + 1) Op.update) s).trace
          = (runOps (List.replicate k Op.update)
              (runOp Op.update s)).trace := by
            simp [List.replicate_succ, runOps]
        _ = (runOp Op.update s).trace ++
              (List.replicate k heartbeatTrace).flatten := ih _ hstep
        _ = s.trace ++ (List.replicate (k + 1) heartbeatTrace).flatten := by
            have : (runOp Op.update s).trace = s.trace ++ heartbeatTrace :=
              updateMatrixAnimation_trace_of_initial s h
            simp [this, List.replicate_succ]

/-- C1: every invocation of `updateMatrixAnimation` (from any state the
program can reach by running operations from the initial state) issues
exactly: render `frame_small`, delay 100, render `frame_med`, delay 100,
render `frame_full`, delay 100, render `frame_med`, delay 700, render
`frame_off` — appended to the prior trace, with nothing after the final
off render. -/
theorem C1_update_effect_sequence (ops : List Op) :
    (updateMatrixAnimation (runOps ops initialState)).trace =
      (runOps ops initialState).trace ++
        [ Effect.render frame_small 8 12, Effect.delayMs 100,
          Effect.render frame_med 8 12, Effect.delayMs 100,
          Effect.render frame_full 8 12, Effect.delayMs 100,
          Effect.render frame_med 8 12, Effect.delayMs 700,
          Effect.render frame_off 8 12 ] :=
  updateMatrixAnimation_trace_of_initial _ (runOps_framesInitial ops)

/-- C2: each of the four frame constants has exactly 8 rows of exactly 12
cells, every cell 0 or 1. -/
theorem C2_frames_well_formed :
    frameWellFormed frame_full ∧ frameWellFormed frame_med ∧
    frameWellFormed frame_small ∧ frameWellFormed frame_off := by
  decide

/-- C3: every cell of `frame_off` is 0, for every row index below 8 and
column index below 12. -/
theorem C3_frame_off_all_zero :
    ∀ r, r < 8 → ∀ c, c < 12 → cellAt frame_off r c = 0 := by
  decide

/-- Witness for C3 at row 0, column 0. -/
theorem C3_frame_off_all_zero_witness : cellAt frame_off 0 0 = 0 :=
  C3_frame_off_all_zero 0 (by decide) 0 (by decide)

/-- C4: no sequence of `initMatrix` / `updateMatrixAnimation` invocations
changes any of the four frame globals: after any run they still equal
their compile-time initializers. -/
theorem C4_frames_immutable (ops : List Op) :
    (runOps ops initialState).fFull = frame_full ∧
    (runOps ops initialState).fMed = frame_med ∧
    (runOps ops initialState).fSmall = frame_small ∧
    (runOps ops initialState).fOff = frame_off :=
  runOps_frames ops initialState

/-- C5: invoking `updateMatrixAnimation` N times from the initial state
produces exactly the N-fold repetition of the 5-render/4-delay heartbeat
trace, and leaves the frame globals at their initial values (the
sequencer carries no state between invocations). -/
theorem C5_n_invocations (n : Nat) :
    (runOps (List.replicate n Op.update) initialState).trace =
      (List.replicate n heartbeatTrace).flatten ∧
    framesInitial (runOps (List.replicate n Op.update) initialState) := by
  refine ⟨?_, runOps_framesInitial _⟩
  have h := replicate_update_trace n initialState ⟨rfl, rfl, rfl, rfl⟩
  simpa [initialState] using h

/-- C6: the timing constants are SHORT = 100, SHORT_GAP = 100 and
LONG_GAP = 700, and the delays a heartbeat cycle issues are exactly
[SHORT, SHORT_GAP, SHORT, LONG_GAP] — no other duration occurs. -/
theorem C6_timing_constants :
    SHORT = 100 ∧ SHORT_GAP = 100 ∧ LONG_GAP = 700 ∧
    delaysOf (updateMatrixAnimation initialState).trace =
      [SHORT, SHORT_GAP, SHORT, LONG_GAP] := by
  decide

lemma delaysOf_append_begin (l : List Effect) :
    delaysOf (l ++ [Effect.begin]) = delaysOf l := by
  induction l with
  | nil => simp [delaysOf]
  | cons e rest ih => cases e <;> simp [delaysOf, ih]

/-- C7: `initMatrix`, invoked from any state, appends exactly one `begin`
effect to the trace: no render, no delay, nothing else. -/
theorem C7_initMatrix_begin_only (s : MatrixState) :
    (initMatrix s).trace = s.trace ++ [Effect.begin] ∧
    (initMatrix s).trace.count Effect.begin =
      s.trace.count Effect.begin + 1 ∧
    delaysOf (initMatrix s).trace = delaysOf s.trace ∧
    ((initMatrix s).trace.filter
        (fun e => effectKind e = EffectKind.render)) =
      (s.trace.filter (fun e => effectKind e = EffectKind.render)) := by
  refine ⟨rfl, ?_, ?_, ?_⟩
  · simp [initMatrix]
  · exact delaysOf_append_begin s.trace
  · simp [initMatrix, effectKind]

/-- C8: every render effect of a heartbeat cycle passes row count 8 and
column count 12, and these equal the actual dimensions of the frame
argument. -/
theorem C8_render_dims (e : Effect)
    (h : e ∈ (updateMatrixAnimation initialState).trace) :
    renderDimsOk e := by
  revert e; decide

/-- Witness for C8: the first render of the cycle. -/
theorem C8_render_dims_witness : renderDimsOk (Effect.render frame_small 8 12) :=
  C8_render_dims (Effect.render frame_small 8 12) (by decide)

/-- C9: `updateMatrixAnimation` terminates on every state (it is a total
function) and always issues exactly nine effects — five renders and four
delays, strictly alternating render/delay/.../render — regardless of the
prior state. -/
theorem C9_straight_line (s : MatrixState) :
    ((updateMatrixAnimation s).trace.drop s.trace.length).map effectKind =
      [ EffectKind.render, EffectKind.delay, EffectKind.render,
        EffectKind.delay, EffectKind.render, EffectKind.delay,
        EffectKind.render, EffectKind.delay, EffectKind.render ] := by
  simp [updateMatrixAnimation, effectKind]

/-- C10: the heart bitmaps are pointwise nested: a lit cell of
`frame_small` is lit in `frame_med`, and a lit cell of `frame_med` is lit
in `frame_full`, at every row index below 8 and column index below 12. -/
theorem C10_frames_nested :
    ∀ r, r < 8 → ∀ c, c < 12 →
      (cellAt frame_small r c = 1 → cellAt frame_med r c = 1) ∧
      (cellAt frame_med r c = 1 → cellAt frame_full r c = 1) := by
  decide

/-- Witness for C10 at row 1, column 3 (lit in all three frames). -/
theorem C10_frames_nested_witness :
    (cellAt frame_small 1 3 = 1 → cellAt frame_med 1 3 = 1) ∧
    (cellAt frame_med 1 3 = 1 → cellAt frame_full 1 3 = 1) :=
  C10_frames_nested 1 (by decide) 3 (by decide)
